import Mathlib

/-!
Shallow embedding of the VenomVerse analysis pipeline
(`backend/venom_analyzer.py`, `backend/protein_generator.py`,
`backend/venomverse_api.py`).

Python strings become `String`, dicts become association lists in the
source's literal (insertion) order, floats become `ℚ`, and calls to
`random.uniform` / `random.randint` / `random.choice` become explicit
parameters constrained by the ranges the source passes to them.
String primitives (`lower`, `strip`, `title`, `in`, `startswith`) are
embedded as structurally recursive functions on the character list so
that all of them evaluate inside the kernel.
-/

namespace VenomVerse

/-- Python's `str.lower()` (character-wise, ASCII letters). -/
def pyLower (s : String) : String :=
  ⟨s.data.map Char.toLower⟩

/-- Python's `str.strip()`: drop leading and trailing whitespace. -/
def pyStrip (s : String) : String :=
  ⟨((s.data.dropWhile Char.isWhitespace).reverse.dropWhile Char.isWhitespace).reverse⟩

/-- Python's `a in b` substring test on character lists:
`needle` occurs contiguously inside the list. -/
def containsChars (needle : List Char) : List Char → Bool
  | [] => needle.isEmpty
  | c :: rest => needle.isPrefixOf (c :: rest) || containsChars needle rest

/-- Python's `a in b` on strings (substring containment). -/
def pyIn (needle hay : String) : Bool :=
  containsChars needle.data hay.data

/-- Python's `s.startswith(p)`. -/
def pyStartsWith (s pre : String) : Bool :=
  pre.data.isPrefixOf s.data

/-- Auxiliary fold for `pyTitle`: the Boolean records whether the previous
character was cased (alphabetic), matching CPython's `str.title`. -/
def pyTitleAux : Bool → List Char → List Char
  | _, [] => []
  | prevCased, c :: cs =>
    (if prevCased then c.toLower else c.toUpper) :: pyTitleAux c.isAlpha cs

/-- Python's `str.title()`: uppercase every cased character that follows a
non-cased character, lowercase the rest. -/
def pyTitle (s : String) : String :=
  ⟨pyTitleAux false s.data⟩

/-- Python's `dict.get(k, default)` over an association list (first key wins;
dict keys are unique). -/
def dictGetD {α : Type} (table : List (String × α)) (k : String) (dflt : α) : α :=
  match table.find? (fun kv => kv.1 == k) with
  | some kv => kv.2
  | none => dflt

/-- Python's `int(x)` on a float: truncation toward zero. -/
def pyTrunc (q : ℚ) : ℤ :=
  if q < 0 then -⌊-q⌋ else ⌊q⌋

/-- Round to the nearest integer, ties to the even integer — the rounding
CPython's builtin `round` uses. -/
def rndHalfEven (q : ℚ) : ℤ :=
  if q - ⌊q⌋ < 1/2 then ⌊q⌋
  else if 1/2 < q - ⌊q⌋ then ⌊q⌋ + 1
  else if 2 ∣ ⌊q⌋ then ⌊q⌋ else ⌊q⌋ + 1

/-- Python's `round(x, 2)`. -/
def pyRound2 (q : ℚ) : ℚ := (rndHalfEven (q * 100) : ℚ) / 100

/-- Python's `round(x, 1)`. -/
def pyRound1 (q : ℚ) : ℚ := (rndHalfEven (q * 10) : ℚ) / 10

/-- One entry of `VenomAnalyzer.venom_database`. -/
structure VenomEntry where
  diseases : List (String × ℚ)
  compounds : List String
  mechanism : String
deriving DecidableEq, Repr

/-- Result dict of `VenomAnalyzer.analyze_venom`. -/
structure AnalysisResult where
  species : String
  diseases : List (String × ℚ)
  compounds : List String
  mechanism : String
  confidence : ℚ
deriving DecidableEq, Repr

/-- `VenomAnalyzer.venom_database`, in the source's literal order. -/
def venom_database : List (String × VenomEntry) :=
  [ ("cobra",
     { diseases := [("glioblastoma", 0.92), ("breast cancer", 0.85),
                    ("melanoma", 0.78), ("lung cancer", 0.73), ("colon cancer", 0.68)]
       compounds := ["Cardiotoxin", "Neurotoxin", "Phospholipase A2"]
       mechanism := "Targets cancer cell membranes and induces apoptosis" }),
    ("black mamba",
     { diseases := [("alzheimer's disease", 0.94), ("parkinson's disease", 0.89),
                    ("huntington's disease", 0.82), ("amyotrophic lateral sclerosis", 0.76)]
       compounds := ["Dendrotoxin", "Fasciculin", "Calciseptine"]
       mechanism := "Modulates ion channels and protects neurons from degeneration" }),
    ("box jellyfish",
     { diseases := [("alzheimer's disease", 0.90), ("parkinson's disease", 0.88),
                    ("multiple sclerosis", 0.75), ("epilepsy", 0.70), ("stroke", 0.65)]
       compounds := ["Cnidarian toxin", "Hemolytic protein", "Dermatonecrotic factor"]
       mechanism := "Crosses blood-brain barrier and reduces neuroinflammation" }),
    ("funnel web spider",
     { diseases := [("chronic pain", 0.95), ("epilepsy", 0.80),
                    ("cardiac arrhythmia", 0.70), ("neuropathic pain", 0.88), ("migraine", 0.72)]
       compounds := ["Atracotoxin", "Robustoxin", "Versutoxin"]
       mechanism := "Blocks voltage-gated sodium channels for pain relief" }),
    ("deathstalker scorpion",
     { diseases := [("autoimmune diseases", 0.87), ("rheumatoid arthritis", 0.82),
                    ("lupus", 0.70), ("multiple sclerosis", 0.75), ("inflammatory bowel disease", 0.68)]
       compounds := ["Chlorotoxin", "Charybdotoxin", "Agitoxin"]
       mechanism := "Modulates immune response and reduces inflammation" }),
    ("cone snail",
     { diseases := [("chronic pain", 0.96), ("neuropathic pain", 0.93),
                    ("cancer pain", 0.89), ("fibromyalgia", 0.84), ("post-surgical pain", 0.80)]
       compounds := ["Conotoxin", "Omega-conotoxin", "Alpha-conotoxin"]
       mechanism := "Highly selective calcium channel blocking for pain management" }),
    ("honeybee",
     { diseases := [("inflammation", 0.93), ("arthritis", 0.89),
                    ("chronic pain", 0.80), ("autoimmune diseases", 0.75), ("skin conditions", 0.70)]
       compounds := ["Melittin", "Phospholipase A2", "Apamin"]
       mechanism := "Anti-inflammatory properties and immune system modulation" }),
    ("sea snake",
     { diseases := [("blood clotting disorders", 0.91), ("stroke", 0.86),
                    ("heart attack", 0.81), ("thrombosis", 0.88), ("pulmonary embolism", 0.79)]
       compounds := ["Erabutoxin", "Laticotoxin", "Pelamitoxin"]
       mechanism := "Anticoagulant properties prevent blood clot formation" }) ]

/-- The entry stored under `"cobra"` in `venom_database`. -/
def cobra_entry : VenomEntry :=
  { diseases := [("glioblastoma", 0.92), ("breast cancer", 0.85),
                 ("melanoma", 0.78), ("lung cancer", 0.73), ("colon cancer", 0.68)]
    compounds := ["Cardiotoxin", "Neurotoxin", "Phospholipase A2"]
    mechanism := "Targets cancer cell membranes and induces apoptosis" }

/-- The species-matching loop of `analyze_venom`: first database key (in
insertion order) where the normalized input is a substring of the key or
the key a substring of the input. -/
def find_match (species_key : String) : Option (String × VenomEntry) :=
  venom_database.find? (fun kv => pyIn species_key kv.1 || pyIn kv.1 species_key)

/-- First range passed to `random.uniform` on the fallback path of
`analyze_venom` (the `"unknown condition"` draw). -/
def fallback_range1 : ℚ × ℚ := (0.3, 0.7)

/-- Second fallback `random.uniform` range (the `"general inflammation"` draw). -/
def fallback_range2 : ℚ × ℚ := (0.4, 0.8)

/-- Third fallback `random.uniform` range (the `"pain management"` draw). -/
def fallback_range3 : ℚ × ℚ := (0.5, 0.9)

/-- `VenomAnalyzer.analyze_venom`. The parameters `r1 r2 r3` stand for the
three already-rounded `round(random.uniform(..), 2)` draws used only on the
fallback (no-match) path. -/
def analyze_venom (r1 r2 r3 : ℚ) (species_name : String) : AnalysisResult :=
  match find_match (pyStrip (pyLower species_name)) with
  | some kv =>
    { species := pyTitle kv.1
      diseases := kv.2.diseases
      compounds := kv.2.compounds
      mechanism := kv.2.mechanism
      confidence := 0.95 }
  | none =>
    { species := pyTitle species_name
      diseases := [("unknown condition", r1), ("general inflammation", r2),
                   ("pain management", r3)]
      compounds := ["Unknown compound A", "Unknown compound B"]
      mechanism := "Mechanism requires further research"
      confidence := 0.45 }

/-- The fold behind Python's `max(diseases, key=diseases.get)`: keep the
current best unless a later entry is strictly greater, so the first
maximal entry in iteration order wins. -/
def pyMaxSnd (x : String × ℚ) : List (String × ℚ) → String × ℚ
  | [] => x
  | y :: ys => pyMaxSnd (if y.2 > x.2 then y else x) ys

/-- `VenomAnalyzer.get_top_disease`, on the diseases mapping of the analysis
result (each dict key paired with its value, in insertion order). -/
def get_top_disease (diseases : List (String × ℚ)) : String × ℚ :=
  match diseases with
  | [] => ("unknown", 0)
  | x :: xs => pyMaxSnd x xs

/-- `VenomAnalyzer.estimate_market_impact`'s static prevalence table
(values in thousands of patients), in source order. -/
def disease_prevalence : List (String × ℚ) :=
  [("glioblastoma", 3.2), ("breast cancer", 2100), ("melanoma", 325),
   ("lung cancer", 2200), ("alzheimer's disease", 55000), ("parkinson's disease", 10000),
   ("multiple sclerosis", 2800), ("chronic pain", 1500000), ("epilepsy", 65000),
   ("rheumatoid arthritis", 18000), ("lupus", 5000), ("stroke", 15000),
   ("heart attack", 17900), ("inflammation", 500000), ("arthritis", 350000)]

/-- `disease_prevalence.get(disease.lower(), 100)`. -/
def prevalence_of (disease : String) : ℚ :=
  dictGetD disease_prevalence (pyLower disease) 100

/-- Result dict of `VenomAnalyzer.estimate_market_impact`. -/
structure MarketImpact where
  potential_patients_saved : ℤ
  annual_market_millions : ℚ
  ten_year_market_billions : ℚ
  treatment_efficacy : ℚ
deriving DecidableEq, Repr

/-- `VenomAnalyzer.estimate_market_impact`. The parameters stand for the
two uniform draws: `treatment_rate = random.uniform(0.1, 0.3)` and
`cost_per_patient = random.uniform(50, 500)`. -/
def estimate_market_impact (treatment_rate cost_per_patient : ℚ)
    (disease : String) (confidence_score : ℚ) : MarketImpact :=
  { potential_patients_saved :=
      pyTrunc (prevalence_of disease * 1000 * treatment_rate * confidence_score)
    annual_market_millions :=
      pyRound2 ((pyTrunc (prevalence_of disease * 1000 * treatment_rate * confidence_score) : ℚ)
        * cost_per_patient / 1000000)
    ten_year_market_billions :=
      pyRound2 ((pyTrunc (prevalence_of disease * 1000 * treatment_rate * confidence_score) : ℚ)
        * cost_per_patient * 10 / 1000000000)
    treatment_efficacy := pyRound1 (confidence_score * 100) }

/-- `ProteinGenerator.species_prefixes`, in source order. -/
def species_prefixes : List (String × String) :=
  [("cobra", "COB"), ("black mamba", "MAM"), ("box jellyfish", "JEL"),
   ("funnel web spider", "FWS"), ("deathstalker scorpion", "DSC"),
   ("cone snail", "CON"), ("honeybee", "BEE"), ("sea snake", "SEA")]

/-- `ProteinGenerator.therapeutic_suffixes`. -/
def therapeutic_suffixes : List (String × List String) :=
  [("cancer", ["onc", "tum", "neo"]), ("neurological", ["neur", "cog", "syn"]),
   ("pain", ["alg", "noc", "pain"]), ("inflammation", ["inf", "imm", "anti"]),
   ("cardiovascular", ["card", "vasc", "hem"])]

/-- Cancer keyword list (identical in `generate_protein_name` and
`generate_mechanism_description`). -/
def cancer_keywords : List String :=
  ["cancer", "tumor", "carcinoma", "melanoma", "glioblastoma"]

/-- Neurological keyword list (identical in both classifiers). -/
def neurological_keywords : List String :=
  ["alzheimer", "parkinson", "neurological", "epilepsy", "stroke"]

/-- Pain keyword list (identical in both classifiers). -/
def pain_keywords : List String :=
  ["pain", "chronic pain", "neuropathic"]

/-- Inflammation keyword list (identical in both classifiers). -/
def inflammation_keywords : List String :=
  ["inflammation", "arthritis", "autoimmune", "lupus"]

/-- Cardiovascular keyword list of `generate_protein_name` (line 66). -/
def namer_cardio_keywords : List String :=
  ["heart", "cardiovascular", "stroke", "clot"]

/-- Cardiovascular keyword list of `generate_mechanism_description`
(line 151) — it additionally contains `"thrombosis"`. -/
def composer_cardio_keywords : List String :=
  ["heart", "cardiovascular", "stroke", "clot", "thrombosis"]

/-- Python's `any(term in s for term in ks)`. -/
def anyKeyword (ks : List String) (s : String) : Bool :=
  ks.any (fun t => pyIn t s)

/-- The therapeutic-category if/elif chain of
`ProteinGenerator.generate_protein_name` (lines 58-67); `none` is the
no-match case in which the suffix stays at its default `"X"`. -/
def namer_category (disease : String) : Option String :=
  if anyKeyword cancer_keywords (pyLower disease) then some "cancer"
  else if anyKeyword neurological_keywords (pyLower disease) then some "neurological"
  else if anyKeyword pain_keywords (pyLower disease) then some "pain"
  else if anyKeyword inflammation_keywords (pyLower disease) then some "inflammation"
  else if anyKeyword namer_cardio_keywords (pyLower disease) then some "cardiovascular"
  else none

/-- The category loop of `ProteinGenerator.generate_mechanism_description`
(lines 146-155): first category, in dict order, one of whose keywords is
contained in the lowercased disease. The source's sentinel value
`"general"` (no category matched, generic fallback sentence) is modelled
as `none`. -/
def composer_category (disease : String) : Option String :=
  if anyKeyword cancer_keywords (pyLower disease) then some "cancer"
  else if anyKeyword neurological_keywords (pyLower disease) then some "neurological"
  else if anyKeyword pain_keywords (pyLower disease) then some "pain"
  else if anyKeyword inflammation_keywords (pyLower disease) then some "inflammation"
  else if anyKeyword composer_cardio_keywords (pyLower disease) then some "cardiovascular"
  else none

/-- `ProteinGenerator.generate_protein_name`. `pick` models
`random.choice` on the per-category suffix list, `version` models
`random.randint(1, 9)`, and `subversion` models
`random.choice(string.ascii_lowercase)`. The suffix if/elif chain is
factored through `namer_category` (each branch draws from the
corresponding `therapeutic_suffixes` entry). -/
def generate_protein_name (pick : List String → String) (version : ℕ)
    (subversion : Char) (species disease : String) : String :=
  (match species_prefixes.find?
      (fun kv => pyIn kv.1 (pyLower species) || pyIn (pyLower species) kv.1) with
   | some kv => kv.2
   | none => "UNK") ++ "-" ++
  (match namer_category disease with
   | some cat => pick (dictGetD therapeutic_suffixes cat [])
   | none => "X") ++
  toString version ++ String.singleton subversion

/-- `VenomVerseAPI.get_species_suggestions`: loop over the database keys
appending the title-cased key whenever the lowercased partial input is
contained in the key or the key starts with it, then keep the first 5. -/
def get_species_suggestions (frag : String) : List String :=
  ((venom_database.map Prod.fst).foldl
    (fun acc species =>
      if pyIn (pyLower frag) species || pyStartsWith species (pyLower frag)
      then acc ++ [pyTitle species] else acc) []).take 5

/-- One record of `VenomVerseAPI.get_disease_info`'s static table. -/
structure DiseaseInfo where
  description : String
  current_treatments : List String
  survival_rate : String
  unmet_need : String
deriving DecidableEq, Repr

/-- The 3-entry static table inside `VenomVerseAPI.get_disease_info`. -/
def disease_info_table : List (String × DiseaseInfo) :=
  [("glioblastoma",
    { description := "Aggressive brain cancer with poor prognosis"
      current_treatments := ["Surgery", "Radiation", "Chemotherapy"]
      survival_rate := "15 months median"
      unmet_need := "High - limited treatment options" }),
   ("alzheimer's disease",
    { description := "Progressive neurodegenerative disorder"
      current_treatments := ["Cholinesterase inhibitors", "NMDA antagonists"]
      survival_rate := "4-8 years progression"
      unmet_need := "Critical - no disease-modifying treatments" }),
   ("chronic pain",
    { description := "Persistent pain lasting >3 months"
      current_treatments := ["Opioids", "NSAIDs", "Physical therapy"]
      survival_rate := "Chronic condition"
      unmet_need := "High - opioid crisis demands alternatives" })]

/-- The default record `get_disease_info` returns for unknown diseases. -/
def disease_info_default : DiseaseInfo :=
  { description := "Disease information not available"
    current_treatments := ["Standard care"]
    survival_rate := "Variable"
    unmet_need := "Research needed" }

/-- `VenomVerseAPI.get_disease_info`. -/
def get_disease_info (disease_name : String) : DiseaseInfo :=
  dictGetD disease_info_table (pyLower disease_name) disease_info_default

/- ---------------------------------------------------------------- -/
/- Helper lemmas -/

theorem pyMaxSnd_le (x : String × ℚ) (ys : List (String × ℚ)) :
    x.2 ≤ (pyMaxSnd x ys).2 ∧ ∀ y ∈ ys, y.2 ≤ (pyMaxSnd x ys).2 := by
  induction ys generalizing x with
  | nil => exact ⟨le_refl _, by simp⟩
  | cons y ys ih =>
    have hx : x.2 ≤ (if y.2 > x.2 then y else x).2 := by
      split
      · exact le_of_lt (by assumption)
      · exact le_refl _
    have hy : y.2 ≤ (if y.2 > x.2 then y else x).2 := by
      split
      · exact le_refl _
      · exact le_of_not_lt (by assumption)
    obtain ⟨h1, h2⟩ := ih (if y.2 > x.2 then y else x)
    refine ⟨le_trans hx h1, ?_⟩
    intro z hz
    rcases List.mem_cons.mp hz with rfl | hz'
    · exact le_trans hy h1
    · exact h2 z hz'

theorem pyMaxSnd_decomp (x : String × ℚ) (ys : List (String × ℚ)) :
    ∃ pre suf, x :: ys = pre ++ pyMaxSnd x ys :: suf ∧
      ∀ p ∈ pre, p.2 < (pyMaxSnd x ys).2 := by
  induction ys generalizing x with
  | nil => exact ⟨[], [], rfl, by simp⟩
  | cons y ys ih =>
    by_cases hgt : y.2 > x.2
    · have h1 : pyMaxSnd x (y :: ys) = pyMaxSnd y ys := by simp [pyMaxSnd, hgt]
      obtain ⟨pre, suf, hdec, hlt⟩ := ih y
      refine ⟨x :: pre, suf, ?_, ?_⟩
      · rw [h1, List.cons_append, ← hdec]
      · intro p hp
        rw [h1]
        rcases List.mem_cons.mp hp with rfl | hp'
        · exact lt_of_lt_of_le hgt (pyMaxSnd_le y ys).1
        · exact hlt p hp'
    · have h1 : pyMaxSnd x (y :: ys) = pyMaxSnd x ys := by simp [pyMaxSnd, hgt]
      obtain ⟨pre, suf, hdec, hlt⟩ := ih x
      cases pre with
      | nil =>
        simp only [List.nil_append] at hdec
        have hx : pyMaxSnd x ys = x := by
          injection hdec with hh _
          exact hh.symm
        refine ⟨[], y :: ys, ?_, by simp⟩
        rw [h1, hx]
        rfl
      | cons a pre' =>
        simp only [List.cons_append] at hdec
        injection hdec with ha hrest
        have hx2 : x.2 < (pyMaxSnd x ys).2 := by
          conv_lhs => rw [ha]
          exact hlt a (List.mem_cons_self a pre')
        refine ⟨x :: y :: pre', suf, ?_, ?_⟩
        · rw [h1]
          show x :: y :: ys = x :: (y :: (pre' ++ pyMaxSnd x ys :: suf))
          nth_rewrite 1 [hrest]
          rfl
        · intro p hp
          rw [h1]
          rcases List.mem_cons.mp hp with rfl | hp2
          · exact hx2
          · rcases List.mem_cons.mp hp2 with rfl | hp3
            · exact lt_of_le_of_lt (le_of_not_lt hgt) hx2
            · exact hlt p (List.mem_cons.mpr (Or.inr hp3))

/- ---------------------------------------------------------------- -/
/- Claim theorems -/

/-- C1: for every key `K` stored in the knowledge base, `analyze_venom K`
matches `K` itself (first key in enumeration order related to the
normalized input by two-way substring containment) and returns species
`K.title()`, confidence `0.95`, and the stored diseases, compounds and
mechanism of the entry. -/
theorem analyze_venom_known_key (kv : String × VenomEntry)
    (hkv : kv ∈ venom_database) (r1 r2 r3 : ℚ) :
    analyze_venom r1 r2 r3 kv.1 =
      { species := pyTitle kv.1
        diseases := kv.2.diseases
        compounds := kv.2.compounds
        mechanism := kv.2.mechanism
        confidence := 0.95 } := by
  fin_cases hkv <;> rfl

/-- Witness for C1: the concrete key `"cobra"`. -/
theorem analyze_venom_known_key_checked :
    analyze_venom 0 0 0 "cobra" =
      { species := "Cobra"
        diseases := [("glioblastoma", 0.92), ("breast cancer", 0.85),
                     ("melanoma", 0.78), ("lung cancer", 0.73), ("colon cancer", 0.68)]
        compounds := ["Cardiotoxin", "Neurotoxin", "Phospholipase A2"]
        mechanism := "Targets cancer cell membranes and induces apoptosis"
        confidence := 0.95 } :=
  analyze_venom_known_key ("cobra", cobra_entry)
    (List.mem_cons_self _ _) 0 0 0

/-- C2 counterexample: the three fallback confidence ranges
`[0.3, 0.7]`, `[0.4, 0.8]`, `[0.5, 0.9]` are not disjoint — the value
`1/2` lies inside all three of them. -/
theorem fallback_ranges_overlap :
    (fallback_range1.1 ≤ 1/2 ∧ (1 : ℚ)/2 ≤ fallback_range1.2) ∧
    (fallback_range2.1 ≤ 1/2 ∧ (1 : ℚ)/2 ≤ fallback_range2.2) ∧
    (fallback_range3.1 ≤ 1/2 ∧ (1 : ℚ)/2 ≤ fallback_range3.2) := by
  refine ⟨⟨?_, ?_⟩, ⟨?_, ?_⟩, ⟨?_, ?_⟩⟩ <;> norm_num [fallback_range1, fallback_range2, fallback_range3]

/-- C2 (amended: the three per-entry uniform ranges are distinct but
overlapping, not disjoint): for every input matching no knowledge-base key
under the two-way substring rule, `analyze_venom` returns overall
confidence `0.45`, a disease map with exactly the 3 fixed placeholder
entries carrying the randomized draws, the fixed placeholder compounds,
and the fixed mechanism string. -/
theorem analyze_venom_fallback (s : String) (r1 r2 r3 : ℚ)
    (hmatch : ∀ kv ∈ venom_database,
      pyIn (pyStrip (pyLower s)) kv.1 = false ∧ pyIn kv.1 (pyStrip (pyLower s)) = false)
    (h1 : fallback_range1.1 ≤ r1 ∧ r1 ≤ fallback_range1.2)
    (h2 : fallback_range2.1 ≤ r2 ∧ r2 ≤ fallback_range2.2)
    (h3 : fallback_range3.1 ≤ r3 ∧ r3 ≤ fallback_range3.2) :
    analyze_venom r1 r2 r3 s =
      { species := pyTitle s
        diseases := [("unknown condition", r1), ("general inflammation", r2),
                     ("pain management", r3)]
        compounds := ["Unknown compound A", "Unknown compound B"]
        mechanism := "Mechanism requires further research"
        confidence := 0.45 } := by
  have hf : find_match (pyStrip (pyLower s)) = none := by
    apply List.find?_eq_none.mpr
    intro kv hkv
    obtain ⟨ha, hb⟩ := hmatch kv hkv
    simp [ha, hb]
  unfold analyze_venom
  rw [hf]

/-- Witness for C2's amended theorem: the unmatched input `"zzznotreal"`
with all three draws equal to `1/2`. -/
theorem analyze_venom_fallback_checked :
    analyze_venom (1/2) (1/2) (1/2) "zzznotreal" =
      { species := pyTitle "zzznotreal"
        diseases := [("unknown condition", 1/2), ("general inflammation", 1/2),
                     ("pain management", 1/2)]
        compounds := ["Unknown compound A", "Unknown compound B"]
        mechanism := "Mechanism requires further research"
        confidence := 0.45 } :=
  analyze_venom_fallback "zzznotreal" (1/2) (1/2) (1/2)
    (by decide)
    (by norm_num [fallback_range1])
    (by norm_num [fallback_range2])
    (by norm_num [fallback_range3])

/-- C3: on a non-empty diseases mapping `get_top_disease` returns an entry
of the mapping whose confidence bounds every stored confidence (hence is
the maximum), and that entry is the first maximal one in iteration order;
on the fixed input it returns `("b", 0.9)`, and on the empty mapping the
sentinel `("unknown", 0)`. -/
theorem get_top_disease_spec :
    (∀ l : List (String × ℚ), l ≠ [] →
      get_top_disease l ∈ l ∧
      (∀ p ∈ l, p.2 ≤ (get_top_disease l).2) ∧
      ∃ pre suf, l = pre ++ get_top_disease l :: suf ∧
        ∀ p ∈ pre, p.2 < (get_top_disease l).2) ∧
    get_top_disease [("a", 0.5), ("b", 0.9), ("c", 0.9)] = ("b", 0.9) ∧
    get_top_disease [] = ("unknown", 0) := by
  refine ⟨?_, ?_, rfl⟩
  · intro l hl
    match l with
    | x :: xs =>
      have hle := pyMaxSnd_le x xs
      obtain ⟨pre, suf, hdec, hlt⟩ := pyMaxSnd_decomp x xs
      refine ⟨?_, ?_, pre, suf, hdec, hlt⟩
      · show pyMaxSnd x xs ∈ x :: xs
        rw [hdec]
        exact List.mem_append_right pre (List.mem_cons_self _ _)
      · intro p hp
        rcases List.mem_cons.mp hp with rfl | hp'
        · exact hle.1
        · exact hle.2 p hp'
  · norm_num [get_top_disease, pyMaxSnd]

/-- Witness for C3: the singleton mapping `[("a", 1)]`. -/
theorem get_top_disease_spec_checked :
    get_top_disease [("a", (1 : ℚ))] ∈ [("a", (1 : ℚ))] :=
  (get_top_disease_spec.1 [("a", (1 : ℚ))] (by simp)).1

/-- C10: an input that lowercases/strips to the empty string does not take
the fallback path: the empty string is a substring of every key, so the
first key `"cobra"` matches and its stored entry is returned with species
`"Cobra"` and confidence `0.95`. -/
theorem analyze_venom_empty_input (s : String) (r1 r2 r3 : ℚ)
    (h : pyStrip (pyLower s) = "") :
    analyze_venom r1 r2 r3 s =
      { species := "Cobra"
        diseases := cobra_entry.diseases
        compounds := cobra_entry.compounds
        mechanism := cobra_entry.mechanism
        confidence := 0.95 } := by
  have hf : find_match (pyStrip (pyLower s)) = some ("cobra", cobra_entry) := by
    rw [h]
    rfl
  unfold analyze_venom
  rw [hf]
  rfl

/-- Witness for C10: the literally empty input string. -/
theorem analyze_venom_empty_input_checked :
    analyze_venom 0 0 0 "" =
      { species := "Cobra"
        diseases := cobra_entry.diseases
        compounds := cobra_entry.compounds
        mechanism := cobra_entry.mechanism
        confidence := 0.95 } :=
  analyze_venom_empty_input "" 0 0 0 rfl

theorem rndHalfEven_bounds (q : ℚ) : ⌊q⌋ ≤ rndHalfEven q ∧ rndHalfEven q ≤ ⌊q⌋ + 1 := by
  unfold rndHalfEven
  split_ifs <;> omega

theorem rndHalfEven_nonneg {q : ℚ} (h : 0 ≤ q) : 0 ≤ rndHalfEven q :=
  le_trans (Int.floor_nonneg.mpr h) (rndHalfEven_bounds q).1

theorem rndHalfEven_mono {x y : ℚ} (h : x ≤ y) : rndHalfEven x ≤ rndHalfEven y := by
  rcases lt_or_eq_of_le (Int.floor_mono h) with hf | hf
  · calc rndHalfEven x ≤ ⌊x⌋ + 1 := (rndHalfEven_bounds x).2
      _ ≤ ⌊y⌋ := by omega
      _ ≤ rndHalfEven y := (rndHalfEven_bounds y).1
  · unfold rndHalfEven
    rw [← hf]
    have hfx : (⌊x⌋ : ℚ) ≤ x := Int.floor_le x
    split_ifs <;> first | omega | linarith

theorem pyRound2_nonneg {q : ℚ} (h : 0 ≤ q) : 0 ≤ pyRound2 q := by
  unfold pyRound2
  have := rndHalfEven_nonneg (q := q * 100) (by linarith)
  have h2 : (0 : ℚ) ≤ (rndHalfEven (q * 100) : ℚ) := Int.cast_nonneg.mpr this
  linarith

theorem pyRound2_mono {x y : ℚ} (h : x ≤ y) : pyRound2 x ≤ pyRound2 y := by
  unfold pyRound2
  have := rndHalfEven_mono (x := x * 100) (y := y * 100) (by linarith)
  have h2 : ((rndHalfEven (x * 100) : ℤ) : ℚ) ≤ ((rndHalfEven (y * 100) : ℤ) : ℚ) :=
    Int.cast_le.mpr this
  linarith

theorem pyRound1_nonneg {q : ℚ} (h : 0 ≤ q) : 0 ≤ pyRound1 q := by
  unfold pyRound1
  have := rndHalfEven_nonneg (q := q * 10) (by linarith)
  have h2 : (0 : ℚ) ≤ (rndHalfEven (q * 10) : ℚ) := Int.cast_nonneg.mpr this
  linarith

theorem pyRound1_mono {x y : ℚ} (h : x ≤ y) : pyRound1 x ≤ pyRound1 y := by
  unfold pyRound1
  have := rndHalfEven_mono (x := x * 10) (y := y * 10) (by linarith)
  have h2 : ((rndHalfEven (x * 10) : ℤ) : ℚ) ≤ ((rndHalfEven (y * 10) : ℤ) : ℚ) :=
    Int.cast_le.mpr this
  linarith

theorem pyTrunc_eq_floor {q : ℚ} (h : 0 ≤ q) : pyTrunc q = ⌊q⌋ := by
  unfold pyTrunc
  rw [if_neg (not_lt.mpr h)]

theorem prevalence_pos (d : String) : 0 < prevalence_of d := by
  have hall : ∀ kv ∈ disease_prevalence, (0 : ℚ) < kv.2 := by
    intro p hp
    fin_cases hp <;> norm_num
  unfold prevalence_of dictGetD
  split
  next kv hf => exact hall kv (List.mem_of_find?_eq_some hf)
  next => norm_num

/-- C4: `estimate_market_impact` looks the lowercased disease up in a
15-entry prevalence table (default 100 when absent), computes
`potential_patients = floor(prevalence_thousands * 1000 * treatment_rate *
confidence)`, annual market `potential_patients * cost_per_patient`
(reported in millions, rounded to 2 decimals), ten-year market value
`annual * 10 / 1e9` rounded to 2 decimals, and efficacy
`confidence * 100` rounded to 1 decimal, for a treatment rate drawn from
`[0.10, 0.30]` and a per-patient cost drawn from `[50, 500]`. -/
theorem estimate_market_impact_formula (disease : String) (rate cost c : ℚ)
    (hr1 : 1/10 ≤ rate) (hr2 : rate ≤ 3/10)
    (hk1 : 50 ≤ cost) (hk2 : cost ≤ 500) (hc : 0 ≤ c) :
    estimate_market_impact rate cost disease c =
      { potential_patients_saved := ⌊prevalence_of disease * 1000 * rate * c⌋
        annual_market_millions :=
          pyRound2 ((⌊prevalence_of disease * 1000 * rate * c⌋ : ℚ) * cost / 1000000)
        ten_year_market_billions :=
          pyRound2 ((⌊prevalence_of disease * 1000 * rate * c⌋ : ℚ) * cost * 10 / 1000000000)
        treatment_efficacy := pyRound1 (c * 100) } ∧
    disease_prevalence.length = 15 := by
  have hx : 0 ≤ prevalence_of disease * 1000 * rate * c := by
    have hp := (prevalence_pos disease).le
    have hr : (0 : ℚ) ≤ rate := by linarith
    exact mul_nonneg (mul_nonneg (mul_nonneg hp (by norm_num)) hr) hc
  have ht := pyTrunc_eq_floor hx
  unfold estimate_market_impact
  rw [ht]
  exact ⟨rfl, rfl⟩

/-- Witness for C4: disease `"glioblastoma"`, rate `0.1`, cost `50`,
confidence `1/2`. -/
theorem estimate_market_impact_formula_checked :
    estimate_market_impact (1/10) 50 "glioblastoma" (1/2) =
      { potential_patients_saved := ⌊prevalence_of "glioblastoma" * 1000 * (1/10) * (1/2)⌋
        annual_market_millions :=
          pyRound2 ((⌊prevalence_of "glioblastoma" * 1000 * (1/10) * (1/2)⌋ : ℚ) * 50 / 1000000)
        ten_year_market_billions :=
          pyRound2 ((⌊prevalence_of "glioblastoma" * 1000 * (1/10) * (1/2)⌋ : ℚ) * 50 * 10 / 1000000000)
        treatment_efficacy := pyRound1 ((1/2) * 100) } ∧
    disease_prevalence.length = 15 :=
  estimate_market_impact_formula "glioblastoma" (1/10) 50 (1/2)
    (le_refl _) (by norm_num) (le_refl _) (by norm_num) (by norm_num)

/-- C5: for every disease (known or not) and confidence in `[0, 1]`, all
four outputs of `estimate_market_impact` are non-negative, and with the
two random draws held fixed each output is monotonically non-decreasing
in the confidence score. -/
theorem estimate_market_impact_nonneg_mono (disease : String) (rate cost c c' : ℚ)
    (hr1 : 1/10 ≤ rate) (hr2 : rate ≤ 3/10)
    (hk1 : 50 ≤ cost) (hk2 : cost ≤ 500)
    (hc0 : 0 ≤ c) (hcc : c ≤ c') (hc1 : c' ≤ 1) :
    (0 ≤ (estimate_market_impact rate cost disease c).potential_patients_saved ∧
     0 ≤ (estimate_market_impact rate cost disease c).annual_market_millions ∧
     0 ≤ (estimate_market_impact rate cost disease c).ten_year_market_billions ∧
     0 ≤ (estimate_market_impact rate cost disease c).treatment_efficacy) ∧
    ((estimate_market_impact rate cost disease c).potential_patients_saved ≤
       (estimate_market_impact rate cost disease c').potential_patients_saved ∧
     (estimate_market_impact rate cost disease c).annual_market_millions ≤
       (estimate_market_impact rate cost disease c').annual_market_millions ∧
     (estimate_market_impact rate cost disease c).ten_year_market_billions ≤
       (estimate_market_impact rate cost disease c').ten_year_market_billions ∧
     (estimate_market_impact rate cost disease c).treatment_efficacy ≤
       (estimate_market_impact rate cost disease c').treatment_efficacy) := by
  have hp := (prevalence_pos disease).le
  have hr : (0 : ℚ) ≤ rate := by linarith
  have hk : (0 : ℚ) ≤ cost := by linarith
  have hc'0 : 0 ≤ c' := le_trans hc0 hcc
  have hA : 0 ≤ prevalence_of disease * 1000 * rate :=
    mul_nonneg (mul_nonneg hp (by norm_num)) hr
  have hx : 0 ≤ prevalence_of disease * 1000 * rate * c := mul_nonneg hA hc0
  have hx' : 0 ≤ prevalence_of disease * 1000 * rate * c' := mul_nonneg hA hc'0
  have hxx : prevalence_of disease * 1000 * rate * c ≤
      prevalence_of disease * 1000 * rate * c' := mul_le_mul_of_nonneg_left hcc hA
  have ht := pyTrunc_eq_floor hx
  have ht' := pyTrunc_eq_floor hx'
  have hP : 0 ≤ ⌊prevalence_of disease * 1000 * rate * c⌋ := Int.floor_nonneg.mpr hx
  have hPP : ⌊prevalence_of disease * 1000 * rate * c⌋ ≤
      ⌊prevalence_of disease * 1000 * rate * c'⌋ := Int.floor_mono hxx
  have hPq : (0 : ℚ) ≤ (⌊prevalence_of disease * 1000 * rate * c⌋ : ℚ) :=
    Int.cast_nonneg.mpr hP
  have hPPq : ((⌊prevalence_of disease * 1000 * rate * c⌋ : ℤ) : ℚ) ≤
      ((⌊prevalence_of disease * 1000 * rate * c'⌋ : ℤ) : ℚ) := Int.cast_le.mpr hPP
  unfold estimate_market_impact
  rw [ht, ht']
  refine ⟨⟨hP, ?_, ?_, ?_⟩, hPP, ?_, ?_, ?_⟩
  · exact pyRound2_nonneg (by positivity)
  · exact pyRound2_nonneg (by positivity)
  · exact pyRound1_nonneg (by positivity)
  · refine pyRound2_mono ?_
    have := mul_le_mul_of_nonneg_right hPPq hk
    linarith
  · refine pyRound2_mono ?_
    have := mul_le_mul_of_nonneg_right hPPq hk
    linarith
  · exact pyRound1_mono (by linarith)

/-- Witness for C5: unknown disease `"snakebite fever"`, rate `0.1`, cost
`50`, confidences `0` and `1`. -/
theorem estimate_market_impact_nonneg_mono_checked :
    0 ≤ (estimate_market_impact (1/10) 50 "snakebite fever" 0).potential_patients_saved ∧
    (estimate_market_impact (1/10) 50 "snakebite fever" 0).treatment_efficacy ≤
      (estimate_market_impact (1/10) 50 "snakebite fever" 1).treatment_efficacy :=
  ⟨(estimate_market_impact_nonneg_mono "snakebite fever" (1/10) 50 0 1
      (le_refl _) (by norm_num) (le_refl _) (by norm_num)
      (le_refl _) (by norm_num) (le_refl _)).1.1,
   (estimate_market_impact_nonneg_mono "snakebite fever" (1/10) 50 0 1
      (le_refl _) (by norm_num) (le_refl _) (by norm_num)
      (le_refl _) (by norm_num) (le_refl _)).2.2.2.2⟩

theorem prefix_table_all_alpha :
    ∀ p ∈ species_prefixes.map Prod.snd, p.data.all Char.isAlpha = true := by
  decide

/-- C6: the generated protein name always has the shape
`{PREFIX}-{suffix}{digit}{letter}` with an alphabetic prefix (a table
entry or the default `"UNK"`), a category suffix or the default `"X"`, a
digit in `1..9` and a lowercase letter. -/
theorem generate_protein_name_format (pick : List String → String) (version : ℕ)
    (subversion : Char) (species disease : String)
    (hpick : ∀ l : List String, l ≠ [] → pick l ∈ l)
    (hv1 : 1 ≤ version) (hv2 : version ≤ 9)
    (hs1 : 'a' ≤ subversion) (hs2 : subversion ≤ 'z') :
    ∃ pfx suf d,
      generate_protein_name pick version subversion species disease =
        pfx ++ "-" ++ suf ++ String.singleton d ++ String.singleton subversion ∧
      (pfx ∈ species_prefixes.map Prod.snd ∨ pfx = "UNK") ∧
      pfx.data.all Char.isAlpha = true ∧
      ((∃ cat sl, (cat, sl) ∈ therapeutic_suffixes ∧ suf ∈ sl) ∨ suf = "X") ∧
      '1' ≤ d ∧ d ≤ '9' ∧ 'a' ≤ subversion ∧ subversion ≤ 'z' := by
  have hd : ∃ d, toString version = String.singleton d ∧ '1' ≤ d ∧ d ≤ '9' := by
    interval_cases version
    · exact ⟨'1', rfl, by decide, by decide⟩
    · exact ⟨'2', rfl, by decide, by decide⟩
    · exact ⟨'3', rfl, by decide, by decide⟩
    · exact ⟨'4', rfl, by decide, by decide⟩
    · exact ⟨'5', rfl, by decide, by decide⟩
    · exact ⟨'6', rfl, by decide, by decide⟩
    · exact ⟨'7', rfl, by decide, by decide⟩
    · exact ⟨'8', rfl, by decide, by decide⟩
    · exact ⟨'9', rfl, by decide, by decide⟩
  obtain ⟨d, hd1, hd2, hd3⟩ := hd
  have hpfx : ∃ pfx,
      (match species_prefixes.find?
          (fun kv => pyIn kv.1 (pyLower species) || pyIn (pyLower species) kv.1) with
       | some kv => kv.2
       | none => "UNK") = pfx ∧
      (pfx ∈ species_prefixes.map Prod.snd ∨ pfx = "UNK") ∧
      pfx.data.all Char.isAlpha = true := by
    cases hpm : species_prefixes.find?
        (fun kv => pyIn kv.1 (pyLower species) || pyIn (pyLower species) kv.1) with
    | none => exact ⟨"UNK", rfl, Or.inr rfl, by decide⟩
    | some kv =>
      have hmem : kv.2 ∈ species_prefixes.map Prod.snd :=
        List.mem_map.mpr ⟨kv, List.mem_of_find?_eq_some hpm, rfl⟩
      exact ⟨kv.2, rfl, Or.inl hmem, prefix_table_all_alpha kv.2 hmem⟩
  have hsuf : ∃ suf,
      (match namer_category disease with
       | some cat => pick (dictGetD therapeutic_suffixes cat [])
       | none => "X") = suf ∧
      ((∃ cat sl, (cat, sl) ∈ therapeutic_suffixes ∧ suf ∈ sl) ∨ suf = "X") := by
    cases hnc : namer_category disease with
    | none => exact ⟨"X", rfl, Or.inr rfl⟩
    | some cat =>
      unfold namer_category at hnc
      split_ifs at hnc
      · injection hnc with hcat
        subst hcat
        exact ⟨pick (dictGetD therapeutic_suffixes "cancer" []), rfl,
          Or.inl ⟨"cancer", ["onc", "tum", "neo"], by decide,
            hpick ["onc", "tum", "neo"] (by decide)⟩⟩
      · injection hnc with hcat
        subst hcat
        exact ⟨pick (dictGetD therapeutic_suffixes "neurological" []), rfl,
          Or.inl ⟨"neurological", ["neur", "cog", "syn"], by decide,
            hpick ["neur", "cog", "syn"] (by decide)⟩⟩
      · injection hnc with hcat
        subst hcat
        exact ⟨pick (dictGetD therapeutic_suffixes "pain" []), rfl,
          Or.inl ⟨"pain", ["alg", "noc", "pain"], by decide,
            hpick ["alg", "noc", "pain"] (by decide)⟩⟩
      · injection hnc with hcat
        subst hcat
        exact ⟨pick (dictGetD therapeutic_suffixes "inflammation" []), rfl,
          Or.inl ⟨"inflammation", ["inf", "imm", "anti"], by decide,
            hpick ["inf", "imm", "anti"] (by decide)⟩⟩
      · injection hnc with hcat
        subst hcat
        exact ⟨pick (dictGetD therapeutic_suffixes "cardiovascular" []), rfl,
          Or.inl ⟨"cardiovascular", ["card", "vasc", "hem"], by decide,
            hpick ["card", "vasc", "hem"] (by decide)⟩⟩
  obtain ⟨pfx, hp1, hp2, hp3⟩ := hpfx
  obtain ⟨suf, hq1, hq2⟩ := hsuf
  refine ⟨pfx, suf, d, ?_, hp2, hp3, hq2, hd2, hd3, hs1, hs2⟩
  unfold generate_protein_name
  rw [hp1, hq1, hd1]

/-- Witness for C6: species `"Cobra"`, disease `"glioblastoma"`, first
suffix choice, version 7, subversion `'a'`. -/
theorem generate_protein_name_format_checked :
    ∃ pfx suf d,
      generate_protein_name (fun l => l.headD "") 7 'a' "Cobra" "glioblastoma" =
        pfx ++ "-" ++ suf ++ String.singleton d ++ String.singleton 'a' ∧
      (pfx ∈ species_prefixes.map Prod.snd ∨ pfx = "UNK") ∧
      pfx.data.all Char.isAlpha = true ∧
      ((∃ cat sl, (cat, sl) ∈ therapeutic_suffixes ∧ suf ∈ sl) ∨ suf = "X") ∧
      '1' ≤ d ∧ d ≤ '9' ∧ 'a' ≤ 'a' ∧ 'a' ≤ 'z' :=
  generate_protein_name_format (fun l => l.headD "") 7 'a' "Cobra" "glioblastoma"
    (fun l hl => by
      cases l with
      | nil => exact absurd rfl hl
      | cons x xs => exact List.mem_cons_self x xs)
    (by decide) (by decide) (by decide) (by decide)

/-- C7 counterexample: at the concrete disease `"thrombosis"` the Protein
Namer's classifier finds no category (suffix falls back to `"X"`) while
the Mechanism Composer's classifier returns `cardiovascular`, because only
the latter's keyword list contains `"thrombosis"`. -/
theorem category_classifiers_differ_at_thrombosis :
    namer_category "thrombosis" = none ∧
    composer_category "thrombosis" = some "cardiovascular" := by
  exact ⟨rfl, rfl⟩

/-- C7 (amended: the two classifiers agree on every disease whose
lowercased form does not contain `"thrombosis"`; they can differ
otherwise, since the composer's cardiovascular keyword list additionally
contains `"thrombosis"`): under that hypothesis the category computed by
`generate_mechanism_description` equals the one computed by
`generate_protein_name`. -/
theorem category_classifiers_agree (disease : String)
    (h : pyIn "thrombosis" (pyLower disease) = false) :
    namer_category disease = composer_category disease := by
  unfold namer_category composer_category
  have hc : anyKeyword composer_cardio_keywords (pyLower disease) =
      anyKeyword namer_cardio_keywords (pyLower disease) := by
    unfold anyKeyword composer_cardio_keywords namer_cardio_keywords
    simp [List.any_cons, List.any_nil, h]
  rw [hc]

/-- Witness for C7's amended theorem: the disease `"glioblastoma"`. -/
theorem category_classifiers_agree_checked :
    namer_category "glioblastoma" = composer_category "glioblastoma" :=
  category_classifiers_agree "glioblastoma" (by decide)

theorem foldl_filter_append {α β : Type} (f : α → Bool) (g : α → β) :
    ∀ (l : List α) (acc : List β),
      l.foldl (fun a x => if f x then a ++ [g x] else a) acc =
        acc ++ (l.filter f).map g := by
  intro l
  induction l with
  | nil => intro acc; simp
  | cons x xs ih =>
    intro acc
    by_cases hf : f x
    · simp [List.foldl_cons, hf, ih, List.filter_cons, List.append_assoc]
    · simp [List.foldl_cons, hf, ih, List.filter_cons]

/-- C8: `get_species_suggestions` returns the title-cased database keys
that contain the lowercased partial input or start with it, in database
enumeration order (a sublist of the title-cased key list), truncated to at
most 5; the query `"spider"` returns exactly `["Funnel Web Spider"]`. -/
theorem get_species_suggestions_spec :
    (∀ q : String,
      get_species_suggestions q =
        (((venom_database.map Prod.fst).filter
            (fun k => pyIn (pyLower q) k || pyStartsWith k (pyLower q))).map pyTitle).take 5 ∧
      (get_species_suggestions q).length ≤ 5 ∧
      List.Sublist (get_species_suggestions q)
        ((venom_database.map Prod.fst).map pyTitle)) ∧
    get_species_suggestions "spider" = ["Funnel Web Spider"] := by
  have hmain : ∀ q : String,
      get_species_suggestions q =
        (((venom_database.map Prod.fst).filter
            (fun k => pyIn (pyLower q) k || pyStartsWith k (pyLower q))).map pyTitle).take 5 := by
    intro q
    unfold get_species_suggestions
    rw [foldl_filter_append]
    simp
  refine ⟨fun q => ⟨hmain q, ?_, ?_⟩, by decide⟩
  · rw [hmain q]
    exact List.length_take_le _ _
  · rw [hmain q]
    exact (List.take_sublist _ _).trans ((List.filter_sublist _).map pyTitle)

/-- C9: `get_disease_info` returns the stored static record for each of
the three lowercased table keys (in particular `"glioblastoma"` has
survival rate `"15 months median"`) and the fixed default record for
every other name; it is a total function. -/
theorem get_disease_info_spec :
    (∀ n : String, pyLower n = "glioblastoma" →
      get_disease_info n =
        { description := "Aggressive brain cancer with poor prognosis"
          current_treatments := ["Surgery", "Radiation", "Chemotherapy"]
          survival_rate := "15 months median"
          unmet_need := "High - limited treatment options" }) ∧
    (∀ n : String, pyLower n = "alzheimer's disease" →
      get_disease_info n =
        { description := "Progressive neurodegenerative disorder"
          current_treatments := ["Cholinesterase inhibitors", "NMDA antagonists"]
          survival_rate := "4-8 years progression"
          unmet_need := "Critical - no disease-modifying treatments" }) ∧
    (∀ n : String, pyLower n = "chronic pain" →
      get_disease_info n =
        { description := "Persistent pain lasting >3 months"
          current_treatments := ["Opioids", "NSAIDs", "Physical therapy"]
          survival_rate := "Chronic condition"
          unmet_need := "High - opioid crisis demands alternatives" }) ∧
    (∀ n : String, pyLower n ∉ disease_info_table.map Prod.fst →
      get_disease_info n = disease_info_default) ∧
    (get_disease_info "glioblastoma").survival_rate = "15 months median" := by
  refine ⟨?_, ?_, ?_, ?_, rfl⟩
  · intro n h
    unfold get_disease_info
    rw [h]
    rfl
  · intro n h
    unfold get_disease_info
    rw [h]
    rfl
  · intro n h
    unfold get_disease_info
    rw [h]
    rfl
  · intro n h
    unfold get_disease_info dictGetD
    have hf : disease_info_table.find? (fun kv => kv.1 == pyLower n) = none := by
      apply List.find?_eq_none.mpr
      intro kv hkv hbeq
      exact h (List.mem_map.mpr ⟨kv, hkv, eq_of_beq hbeq⟩)
    rw [hf]

/-- Witness for C9: the uppercase query `"GLIOBLASTOMA"` hits the
`"glioblastoma"` table entry; `"ebola"` falls through to the default. -/
theorem get_disease_info_spec_checked :
    get_disease_info "GLIOBLASTOMA" =
      { description := "Aggressive brain cancer with poor prognosis"
        current_treatments := ["Surgery", "Radiation", "Chemotherapy"]
        survival_rate := "15 months median"
        unmet_need := "High - limited treatment options" } ∧
    get_disease_info "ebola" = disease_info_default :=
  ⟨get_disease_info_spec.1 "GLIOBLASTOMA" (by decide),
   (get_disease_info_spec.2.2.2.1) "ebola" (by decide)⟩

end VenomVerse
